import Mathlib

/-!
Shallow embedding of src/sql.rs from the database-rs repository: the SQL
type catalog, the value model, column definitions and the SQL serializer,
together with theorems settling the behavioural claims about them.
-/

namespace Sql

/-- Outcome of a Rust computation that can abort: `ok v` is a normal return,
while `panic msg` models a process abort raised by the panicking macros with
the given message. -/
inductive PanicOr (α : Type) where
  | ok (val : α)
  | panic (msg : String)
deriving DecidableEq

/-- Maps a function over the success value of a `PanicOr`; a panic is kept. -/
def PanicOr.map {α β : Type} (f : α → β) : PanicOr α → PanicOr β
  | .ok a => .ok (f a)
  | .panic msg => .panic msg

/-- Models the enum `Type` of src/sql.rs; it is called `Ty` here because
`Type` is reserved in Lean. The `usize` width parameters become `Nat`. -/
inductive Ty where
  | Boolean
  | BigInt
  | BigIntUnsigned
  | Int
  | IntUnsigned
  | SmallInt
  | SmallIntUnsigned
  | TinyInt
  | TinyIntUnsigned
  | Float (precision : Nat)
  | Real
  | Character (len : Nat)
  | VarChar (len : Nat)
  | Date
  | Time
  | DateTime
  | Blob (size : Nat)
  | Clob (len : Nat)
deriving DecidableEq

/-- Models the derived `Type::variant` used in panic messages: the bare name
of the variant, without its payload. -/
def Ty.variant : Ty → String
  | .Boolean => ("Boolean")
  | .BigInt => ("BigInt")
  | .BigIntUnsigned => ("BigIntUnsigned")
  | .Int => ("Int")
  | .IntUnsigned => ("IntUnsigned")
  | .SmallInt => ("SmallInt")
  | .SmallIntUnsigned => ("SmallIntUnsigned")
  | .TinyInt => ("TinyInt")
  | .TinyIntUnsigned => ("TinyIntUnsigned")
  | .Float _ => ("Float")
  | .Real => ("Real")
  | .Character _ => ("Character")
  | .VarChar _ => ("VarChar")
  | .Date => ("Date")
  | .Time => ("Time")
  | .DateTime => ("DateTime")
  | .Blob _ => ("Blob")
  | .Clob _ => ("Clob")

/-- Models `Type::compatible_with`. The arms appear in source order and, as in
the Rust `match`, the first matching arm decides; the final arm embeds the
derived structural equality used by the source fallback `this == other`. -/
def Ty.compatible_with : Ty → Ty → Bool
  -- Booleans are castable to any numeric type
  | .Boolean, .BigInt | .Boolean, .BigIntUnsigned | .Boolean, .Int
  | .Boolean, .IntUnsigned | .Boolean, .SmallInt | .Boolean, .SmallIntUnsigned
  | .Boolean, .TinyInt | .Boolean, .TinyIntUnsigned
  | .Boolean, .Float _ | .Boolean, .Real => true
  -- Smaller ints cast to larger ints
  | .TinyInt, .SmallInt | .TinyInt, .Int | .TinyInt, .BigInt
  | .TinyIntUnsigned, .SmallIntUnsigned | .TinyIntUnsigned, .IntUnsigned
  | .TinyIntUnsigned, .BigIntUnsigned
  | .SmallInt, .Int | .SmallInt, .BigInt
  | .SmallIntUnsigned, .IntUnsigned | .SmallIntUnsigned, .BigIntUnsigned
  | .Int, .BigInt
  | .IntUnsigned, .BigIntUnsigned => true
  -- Ints cast to reals
  | .TinyInt, .Float _ | .TinyInt, .Real
  | .TinyIntUnsigned, .Float _ | .TinyIntUnsigned, .Real
  | .SmallInt, .Float _ | .SmallInt, .Real
  | .SmallIntUnsigned, .Float _ | .SmallIntUnsigned, .Real
  | .Int, .Float _ | .Int, .Real
  | .IntUnsigned, .Float _ | .IntUnsigned, .Real
  | .BigInt, .Float _ | .BigInt, .Real
  | .BigIntUnsigned, .Float _ | .BigIntUnsigned, .Real => true
  -- Strings cast to each other if their size permits
  | .Character llen, .Character rlen | .Character llen, .VarChar rlen
  | .Character llen, .Clob rlen
  | .VarChar llen, .Character rlen | .VarChar llen, .VarChar rlen
  | .VarChar llen, .Clob rlen
  | .Clob llen, .Character rlen | .Clob llen, .VarChar rlen
  | .Clob llen, .Clob rlen => decide (llen ≤ rlen)
  -- Dates and Times upcast to DateTimes
  | .Date, .DateTime | .Time, .DateTime => true
  -- Otherwise, things that are equal to themselves are always compatible
  | a, b => decide (a = b)

/-- Models `impl ToSql for Type`: the canonical SQL spelling of each type.
Writing to the formatter cannot fail on this path, so the result is a plain
`String`. Note the `Clob` arm of the source spells `BLOB`, not `CLOB`. -/
def Ty.fmt_sql : Ty → String
  | .Boolean => ("BIT")
  | .BigInt => ("BIGINT")
  | .BigIntUnsigned => ("BIGINT UNSIGNED")
  | .Int => ("INT")
  | .IntUnsigned => ("INT UNSIGNED")
  | .SmallInt => ("SMALLINT")
  | .SmallIntUnsigned => ("SMALLINT UNSIGNED")
  | .TinyInt => ("TINYINT")
  | .TinyIntUnsigned => ("TINYINT UNSIGNED")
  | .Float size => ("FLOAT(") ++ toString size ++ (")")
  | .Real => ("REAL")
  | .Character len => ("CHARACTER(") ++ toString len ++ (")")
  | .VarChar len => ("VARCHAR(") ++ toString len ++ (")")
  | .Date => ("DATE")
  | .Time => ("TIME")
  | .DateTime => ("TIMESTAMP")
  | .Blob size => ("BLOB(") ++ toString size ++ (")")
  | .Clob len => ("BLOB(") ++ toString len ++ (")")

/-- Models the payload of `chrono::DateTime<Utc>` at the precision the code
observes through `format("%Y-%m-%d %H:%M:%S")`: the six rendered fields. -/
structure UtcDateTime where
  year : Nat
  month : Nat
  day : Nat
  hour : Nat
  minute : Nat
  second : Nat

/-- Zero-pads a number to two digits, as the chrono numeric specifiers do. -/
def pad2 (n : Nat) : String :=
  if n < 10 then ("0") ++ toString n else toString n

/-- Zero-pads a year to four digits, as chrono does for the year field. -/
def pad4 (n : Nat) : String :=
  if n < 10 then ("000") ++ toString n
  else if n < 100 then ("00") ++ toString n
  else if n < 1000 then ("0") ++ toString n
  else toString n

/-- Models the call `dt.format("%Y-%m-%d %H:%M:%S")` on a UTC instant. -/
def UtcDateTime.format (dt : UtcDateTime) : String :=
  pad4 dt.year ++ ("-") ++ pad2 dt.month ++ ("-") ++ pad2 dt.day ++ (" ")
    ++ pad2 dt.hour ++ (":") ++ pad2 dt.minute ++ (":") ++ pad2 dt.second

/-- Alias for the builtin string type, needed in signatures that live inside
the `Value` namespace, where a constructor named `String` shadows it. -/
abbrev Str : Type := String

/-- Models the enum `Value` of src/sql.rs. Machine integers become `Int` or
`Nat` (their width plays no role in the operations modelled here), `f32` and
`f64` become `Float`, `Vec<u8>` becomes `List Nat`, and the Rust `String`
payloads (UTF-8 byte strings) become Lean `String`. -/
inductive Value where
  | Boolean (b : Bool)
  | BigInt (i : Int)
  | BigIntUnsigned (n : Nat)
  | Int (i : Int)
  | IntUnsigned (n : Nat)
  | SmallInt (i : Int)
  | SmallIntUnsigned (n : Nat)
  | TinyInt (i : Int)
  | TinyIntUnsigned (n : Nat)
  | Float (f : Float)
  | Double (d : Float)
  | String (s : String)
  | DateTime (dt : UtcDateTime)
  | Blob (bytes : List Nat)
  | Clob (c : String)

/-- Models `Value::ty`. The Rust calls `s.len()` and `b.len()` count BYTES of
the UTF-8 payload respectively bytes of the vector, so the string payloads
use `String.utf8ByteSize`, not the character count. -/
def Value.ty : Value → Ty
  | .Boolean _ => .Boolean
  | .BigInt _ => .BigInt
  | .BigIntUnsigned _ => .BigIntUnsigned
  | .Int _ => .Int
  | .IntUnsigned _ => .IntUnsigned
  | .SmallInt _ => .SmallInt
  | .SmallIntUnsigned _ => .SmallIntUnsigned
  | .TinyInt _ => .TinyInt
  | .TinyIntUnsigned _ => .TinyIntUnsigned
  | .Float _ => .Float 32
  | .Double _ => .Float 64
  | .String s => .Character s.utf8ByteSize
  | .DateTime _ => .DateTime
  | .Blob b => .Blob b.length
  | .Clob c => .Clob c.utf8ByteSize

/-- Models `impl ToSql for Value`. The `Blob` arm of the source is an
unimplemented-code marker that panics with the message modelled here; every
other arm writes a literal. -/
def Value.fmt_sql : Value → PanicOr Str
  | .Boolean b => .ok (if b then ("1") else ("0"))
  | .BigInt b => .ok (toString b)
  | .BigIntUnsigned b => .ok (toString b)
  | .Int i => .ok (toString i)
  | .IntUnsigned i => .ok (toString i)
  | .SmallInt s => .ok (toString s)
  | .SmallIntUnsigned s => .ok (toString s)
  | .TinyInt t => .ok (toString t)
  | .TinyIntUnsigned t => .ok (toString t)
  | .Float f => .ok (toString f)
  | .Double d => .ok (toString d)
  | .String s => .ok (("\"") ++ s ++ ("\""))
  | .DateTime dt => .ok (dt.format)
  | .Blob _ => .panic ("not yet implemented")
  | .Clob c => .ok (("\"") ++ c ++ ("\""))

/-- Models the struct `ColumnDef`: name, declared type, the two flags and the
optional default value. -/
structure ColumnDef where
  name : String
  ty : Ty
  auto_increment : Bool
  not_null : Bool
  default : Option Value

/-- Models `ColumnDef::new`: no default, nullable, non-auto-increment. -/
def ColumnDef.new (name : String) (ty : Ty) : ColumnDef :=
  { name := name, ty := ty, auto_increment := false, not_null := false, default := none }

/-- Models the builder method `ColumnDef::auto_increment`, a plain field
update (named `with_auto_increment` here because the field of the same name
occupies the Lean name). -/
def ColumnDef.with_auto_increment (self : ColumnDef) (auto_increment : Bool) : ColumnDef :=
  { self with auto_increment := auto_increment }

/-- Models the builder method `ColumnDef::not_null`, a plain field update. -/
def ColumnDef.with_not_null (self : ColumnDef) (not_null : Bool) : ColumnDef :=
  { self with not_null := not_null }

/-- Models the builder method `ColumnDef::default` (named `set_default` here
because the field of the same name occupies the Lean name): when the new
default is incompatible with the declared column type the source panics with
the message built below, before touching any field; otherwise the `default`
field is updated. -/
def ColumnDef.set_default (self : ColumnDef) (default : Option Value) : PanicOr ColumnDef :=
  match default with
  | some d =>
      if d.ty.compatible_with self.ty then
        .ok { self with default := some d }
      else
        .panic (("Cannot give a value of type ") ++ d.ty.variant
          ++ (" as default value for a column with type ") ++ self.ty.variant)
  | none => .ok { self with default := none }

/-- Models `impl ToSql for ColumnDef`: the quoted name, a space, the type,
then the optional AUTO_INCREMENT, NOT NULL and DEFAULT parts in that order.
Rendering the default literal can panic, see `Value.fmt_sql`. -/
def ColumnDef.fmt_sql (self : ColumnDef) : PanicOr String :=
  let out := ("\"") ++ self.name ++ ("\" ")
  let out := out ++ self.ty.fmt_sql
  let out := if self.auto_increment then out ++ (" AUTO_INCREMENT") else out
  let out := if self.not_null then out ++ (" NOT NULL") else out
  match self.default with
  | some d =>
      match d.fmt_sql with
      | .ok lit => .ok (out ++ (" DEFAULT ") ++ lit)
      | .panic msg => .panic msg
  | none => .ok out

/-- Models the struct `StatementCreateTable`: table name and column list. -/
structure StatementCreateTable where
  name : String
  cols : List ColumnDef

/-- The column loop of `StatementCreateTable::fmt_sql`: `first` tracks
whether the `, ` separator must be written, `acc` is the output so far. -/
def StatementCreateTable.fmt_cols : List ColumnDef → Bool → String → PanicOr String
  | [], _, acc => .ok acc
  | col :: cols, first, acc =>
      let acc := if first then acc else acc ++ (", ")
      match col.fmt_sql with
      | .ok s => StatementCreateTable.fmt_cols cols false (acc ++ s)
      | .panic msg => .panic msg

/-- Models `impl ToSql for StatementCreateTable`. NOTE: the final write of
the source is an over-escaped format string that emits a literal closing
BRACE followed by the semicolon, not a closing parenthesis; the brace is
written with its code \x7d below. -/
def StatementCreateTable.fmt_sql (self : StatementCreateTable) : PanicOr String :=
  match StatementCreateTable.fmt_cols self.cols true
      (("CREATE TABLE \"") ++ self.name ++ ("\" (")) with
  | .ok s => .ok (s ++ ("\x7d;"))
  | .panic msg => .panic msg

/-- Models the struct `StatementUseDatabase`. -/
structure StatementUseDatabase where
  name : String

/-- Models `impl ToSql for StatementUseDatabase`. -/
def StatementUseDatabase.fmt_sql (self : StatementUseDatabase) : PanicOr String :=
  .ok (("USE ") ++ self.name ++ (";"))

/-- Models the toplevel enum `Statement`. -/
inductive Statement where
  | CreateTable (ct : StatementCreateTable)
  | UseDatabase (ud : StatementUseDatabase)

/-- Models `impl ToSql for Statement`: dispatch to the serializer of the
variant. -/
def Statement.fmt_sql : Statement → PanicOr String
  | .CreateTable ct => ct.fmt_sql
  | .UseDatabase ud => ud.fmt_sql

/-- Claim C1, divergence record: the CreateTable of the end-to-end scenario
serializes with both columns comma-separated after the opening parenthesis,
but the column list is closed by a literal BRACE (code \x7d) before the
semicolon, because the final write of the source escapes its braces; the
output is therefore not the text ending in the matching close-parenthesis
that the claim requires. -/
theorem c1_create_table_closing_brace :
    (StatementCreateTable.mk ("foo")
        [ColumnDef.new ("bar") .IntUnsigned, ColumnDef.new ("baz") (.VarChar 32)]).fmt_sql
      = .ok ("CREATE TABLE \"foo\" (\"bar\" INT UNSIGNED, \"baz\" VARCHAR(32)\x7d;")
    ∧ (decide ((StatementCreateTable.mk ("foo")
        [ColumnDef.new ("bar") .IntUnsigned, ColumnDef.new ("baz") (.VarChar 32)]).fmt_sql
      = .ok ("CREATE TABLE \"foo\" (\"bar\" INT UNSIGNED, \"baz\" VARCHAR(32));"))) = false :=
  ⟨rfl, by decide⟩

/-- Claim C2, counterexample: setting an Int default on a Boolean column does
not report a recoverable TypeMismatch error to the caller — the source
panics, modelled by `PanicOr.panic` with the panic message of the source. -/
theorem c2_default_incompatible_panics_cex :
    (ColumnDef.new ("c") .Boolean).set_default (some (Value.Int 1))
      = .panic ("Cannot give a value of type Int as default value for a column with type Boolean") :=
  rfl

/-- Claim C2, amended: for every ColumnDef c and Value v whose type is not
compatible with the declared column type, the default setter rejects the
mutation by a process abort (panic), not by a recoverable TypeMismatch
error; the panic is raised before any field is written, so no updated
column is produced on this path. -/
theorem c2_default_incompatible_panics (c : ColumnDef) (v : Value)
    (h : v.ty.compatible_with c.ty = false) :
    c.set_default (some v)
      = .panic (("Cannot give a value of type ") ++ v.ty.variant
          ++ (" as default value for a column with type ") ++ c.ty.variant) := by
  simp [ColumnDef.set_default, h]

/-- Claim C2, witness: the amended theorem applied to a Boolean column and an
Int default value. -/
theorem c2_default_incompatible_panics_witness :
    (Value.Int 1).ty.compatible_with (ColumnDef.new ("c") .Boolean).ty = false
    ∧ (ColumnDef.new ("c") .Boolean).set_default (some (Value.Int 1))
      = .panic (("Cannot give a value of type ") ++ (Value.Int 1).ty.variant
          ++ (" as default value for a column with type ") ++ (ColumnDef.new ("c") .Boolean).ty.variant) :=
  ⟨rfl, c2_default_incompatible_panics (ColumnDef.new ("c") .Boolean) (Value.Int 1) rfl⟩

/-- Claim C3, counterexample: rendering a concrete Blob literal does not
return a recoverable NotImplemented error — the source reaches the
unimplemented-code marker, which aborts the process with a panic. -/
theorem c3_blob_render_cex :
    Value.fmt_sql (.Blob []) = .panic ("not yet implemented") := rfl

/-- Claim C3, amended: for every byte payload, rendering a Blob literal never
produces SQL text; it aborts via the unimplemented-code panic rather than
returning a recoverable NotImplemented error. -/
theorem c3_blob_render_panics (bytes : List Nat) :
    Value.fmt_sql (.Blob bytes) = .panic ("not yet implemented") := rfl

/-- Claim C4, counterexample: for the one-character string with the e-acute
character (two UTF-8 bytes) the computed type is Character 2, while the
length in characters is 1, so the type is not Character of the character
count. -/
theorem c4_string_ty_cex :
    (Value.String ("é")).ty = Ty.Character 2
    ∧ ("é" : String).length = 1
    ∧ (decide ((Value.String ("é")).ty = Ty.Character (("é" : String).length))) = false :=
  ⟨rfl, by decide, by decide⟩

/-- Claim C4, amended: for every Value.String s, the type-of operation
returns Character n where n is the UTF-8 BYTE length of s (which equals the
character count only when every character is single-byte); it is computed
from the live payload at each call, with no cached width. -/
theorem c4_string_ty_utf8_bytes (s : String) :
    (Value.String s).ty = Ty.Character s.utf8ByteSize := rfl

/-- Claim C5: the compatibility relation is reflexive — for every Ty T,
including every parameterization of Float, Character, VarChar, Blob and
Clob, `compatible_with T T` returns true. -/
theorem c5_compatible_with_refl (T : Ty) : T.compatible_with T = true := by
  cases T <;> first
    | rfl
    | exact decide_eq_true (Nat.le_refl _)
    | exact decide_eq_true rfl

/-- Claim C6: the compatibility relation is directional, not symmetric —
TinyInt widens into Int but Int does not narrow into TinyInt. -/
theorem c6_compatible_with_directional :
    Ty.TinyInt.compatible_with .Int = true ∧ Ty.Int.compatible_with .TinyInt = false := by
  decide

/-- Claim C7: Boolean is compatible with every numeric type — the eight
integer widths, Float of any precision, and Real — and no numeric type is
compatible with Boolean. -/
theorem c7_boolean_numeric (p : Nat) :
    Ty.Boolean.compatible_with .BigInt = true
    ∧ Ty.Boolean.compatible_with .BigIntUnsigned = true
    ∧ Ty.Boolean.compatible_with .Int = true
    ∧ Ty.Boolean.compatible_with .IntUnsigned = true
    ∧ Ty.Boolean.compatible_with .SmallInt = true
    ∧ Ty.Boolean.compatible_with .SmallIntUnsigned = true
    ∧ Ty.Boolean.compatible_with .TinyInt = true
    ∧ Ty.Boolean.compatible_with .TinyIntUnsigned = true
    ∧ Ty.Boolean.compatible_with (.Float p) = true
    ∧ Ty.Boolean.compatible_with .Real = true
    ∧ Ty.BigInt.compatible_with .Boolean = false
    ∧ Ty.BigIntUnsigned.compatible_with .Boolean = false
    ∧ Ty.Int.compatible_with .Boolean = false
    ∧ Ty.IntUnsigned.compatible_with .Boolean = false
    ∧ Ty.SmallInt.compatible_with .Boolean = false
    ∧ Ty.SmallIntUnsigned.compatible_with .Boolean = false
    ∧ Ty.TinyInt.compatible_with .Boolean = false
    ∧ Ty.TinyIntUnsigned.compatible_with .Boolean = false
    ∧ (Ty.Float p).compatible_with .Boolean = false
    ∧ Ty.Real.compatible_with .Boolean = false :=
  ⟨rfl, rfl, rfl, rfl, rfl, rfl, rfl, rfl, rfl, rfl,
   rfl, rfl, rfl, rfl, rfl, rfl, rfl, rfl, rfl, rfl⟩

/-- Claim C8: among the three string-like kinds Character, VarChar and Clob,
compatibility holds exactly when the source width is at most the target
width, for any mix of the kinds; the kind tag plays no role and equality at
the boundary is allowed. -/
theorem c8_stringlike_width (n m : Nat) :
    ((Ty.Character n).compatible_with (.Character m) = true ↔ n ≤ m)
    ∧ ((Ty.Character n).compatible_with (.VarChar m) = true ↔ n ≤ m)
    ∧ ((Ty.Character n).compatible_with (.Clob m) = true ↔ n ≤ m)
    ∧ ((Ty.VarChar n).compatible_with (.Character m) = true ↔ n ≤ m)
    ∧ ((Ty.VarChar n).compatible_with (.VarChar m) = true ↔ n ≤ m)
    ∧ ((Ty.VarChar n).compatible_with (.Clob m) = true ↔ n ≤ m)
    ∧ ((Ty.Clob n).compatible_with (.Character m) = true ↔ n ≤ m)
    ∧ ((Ty.Clob n).compatible_with (.VarChar m) = true ↔ n ≤ m)
    ∧ ((Ty.Clob n).compatible_with (.Clob m) = true ↔ n ≤ m) :=
  ⟨Iff.intro of_decide_eq_true decide_eq_true,
   Iff.intro of_decide_eq_true decide_eq_true,
   Iff.intro of_decide_eq_true decide_eq_true,
   Iff.intro of_decide_eq_true decide_eq_true,
   Iff.intro of_decide_eq_true decide_eq_true,
   Iff.intro of_decide_eq_true decide_eq_true,
   Iff.intro of_decide_eq_true decide_eq_true,
   Iff.intro of_decide_eq_true decide_eq_true,
   Iff.intro of_decide_eq_true decide_eq_true⟩

/-- Claim C9: every ColumnDef renders as the double-quoted name, a space and
the type, followed in fixed order by the AUTO_INCREMENT, NOT NULL and
DEFAULT parts when present; in particular the builder chain of the
end-to-end scenario renders as the expected text. -/
theorem c9_columndef_fmt :
    (∀ (name : String) (ty : Ty) (ai nn : Bool),
      (ColumnDef.mk name ty ai nn none).fmt_sql
        = .ok (("\"") ++ name ++ ("\" ") ++ ty.fmt_sql
            ++ (if ai then (" AUTO_INCREMENT") else (""))
            ++ (if nn then (" NOT NULL") else (""))))
    ∧ (∀ (name : String) (ty : Ty) (ai nn : Bool) (v : Value),
      (ColumnDef.mk name ty ai nn (some v)).fmt_sql
        = (v.fmt_sql).map (fun lit => ("\"") ++ name ++ ("\" ") ++ ty.fmt_sql
            ++ (if ai then (" AUTO_INCREMENT") else (""))
            ++ (if nn then (" NOT NULL") else (""))
            ++ (" DEFAULT ") ++ lit))
    ∧ (((ColumnDef.new ("id") .Int).with_auto_increment true).with_not_null true).fmt_sql
        = .ok ("\"id\" INT AUTO_INCREMENT NOT NULL") := by
  refine ⟨?_, ?_, rfl⟩
  · intro name ty ai nn
    cases ai <;> cases nn <;> simp [ColumnDef.fmt_sql, String.append_empty]
  · intro name ty ai nn v
    cases hv : v.fmt_sql <;> cases ai <;> cases nn <;>
      simp [ColumnDef.fmt_sql, PanicOr.map, hv, String.append_empty]

/-- Claim C10: for every width n, Clob n renders to exactly the same SQL text
as Blob n, namely the BLOB spelling; since the two types are distinct, the
type-to-SQL rendering is not injective, and no CLOB keyword is ever
emitted for Clob. -/
theorem c10_clob_renders_as_blob (n : Nat) :
    Ty.fmt_sql (.Clob n) = Ty.fmt_sql (.Blob n)
    ∧ Ty.fmt_sql (.Clob n) = ("BLOB(") ++ toString n ++ (")")
    ∧ (decide (Ty.Clob n = Ty.Blob n)) = false :=
  ⟨rfl, rfl, rfl⟩

end Sql
